import Mathlib

/-!
Shallow embedding of the RustBlogCMS client modules
(`src/AppRoutes.jsx` context providers and `src/api/client.js`)
used to check the natural-language specification against the code.

JavaScript conventions mirrored here:
* nullish values (`null` / `undefined`) are `Option.none`;
* `a ?? b` is `nullishCoalesce`;
* string truthiness (`""` is falsy) is made explicit at each use site;
* errors are `ApiError` records carrying an optional `status` field,
  matching the ad-hoc `error.status = n` assignments in the source.
-/

namespace CMS

/-- An error value as thrown by the client: a message plus the optional
`status` field that the source attaches with `error.status = n`. -/
structure ApiError where
  status : Option Nat
  msg : String
deriving DecidableEq, Repr

/-- JS `a ?? b` on nullable values. -/
def nullishCoalesce {α : Type} (a b : Option α) : Option α :=
  match a with
  | some v => some v
  | none => b

/-- JS `a || b` for a string `a` that may be nullish: `""` is falsy. -/
def jsOrStr (a : Option String) (b : String) : String :=
  match a with
  | some s => if s = "" then b else s
  | none => b

/-- `slug.trim().toLowerCase()` as used throughout the page cache and
navigation resolver, written structurally over the character list
(drop surrounding whitespace, lowercase each character) so that
concrete slugs compute. -/
def normalizeSlug (s : String) : String :=
  ⟨(((s.data.dropWhile Char.isWhitespace).reverse.dropWhile
        Char.isWhitespace).reverse).map Char.toLower⟩

/-!
## Tutorials retry loader (`TutorialProvider.loadTutorials`)

`api.getTutorials` resolves with arbitrary JSON (an array or not) or
rejects with an error; the provider retries up to 3 attempts while the
error is "retryable" (`!err.status || err.status >= 500`), then clears
the list and stores the error.  A run is modelled by the list of
outcomes of the successive `api.getTutorials` calls.  Abort signals are
not modelled: the claims concern non-aborted runs.
-/

/-- A tutorial as delivered by the server: opaque payload plus a
`topics` field that may be missing or not an array (`none`). -/
structure Tutorial where
  tid : Nat
  topics : Option (List String)
deriving DecidableEq, Repr

/-- A tutorial after the provider's normalization (`topics` forced to an
array: `Array.isArray(tutorial.topics) ? [...tutorial.topics] : []`). -/
structure NormTutorial where
  tid : Nat
  topics : List String
deriving DecidableEq, Repr

/-- `{...tutorial, topics: Array.isArray(tutorial.topics) ? [...] : []}` -/
def normalizeTutorial (t : Tutorial) : NormTutorial :=
  { tid := t.tid, topics := t.topics.getD [] }

/-- Provider state relevant to the loader: the stored list, the stored
error, and the loading flag. -/
structure TutState where
  tutorials : List NormTutorial
  error : Option ApiError
  loading : Bool
deriving DecidableEq, Repr

/-- One `api.getTutorials` outcome: a rejection, or a resolution whose
payload is an array (`some list`) or not an array (`none`). -/
abbrev TutOutcome := Except ApiError (Option (List Tutorial))

/-- `!err.status || err.status >= 500`: JS `!status` is true for a
missing status and for status `0`. -/
def retryable (e : ApiError) : Bool :=
  match e.status with
  | none => true
  | some s => s == 0 || 500 ≤ s

/-- The inner `execute(attempt)` recursion of `loadTutorials`: on
success store the normalized list and clear the error; on a retryable
error with `attempt < 3` retry with the next outcome; otherwise clear
the list and store the error. -/
def runAttempts (attempt : Nat) (outcomes : List TutOutcome)
    (st : TutState) : TutState :=
  match outcomes with
  | [] => st
  | Except.ok d :: _ =>
      { st with
        tutorials := (d.getD []).map normalizeTutorial
        error := none }
  | Except.error e :: rest =>
      if attempt < 3 ∧ retryable e then
        runAttempts (attempt + 1) rest st
      else
        { st with tutorials := [], error := some e }

/-- `loadTutorials`: sets `loading`/clears `error`, runs the attempt
loop starting at attempt 1, and clears `loading` in the `finally`. -/
def loadTutorials (outcomes : List TutOutcome) (st : TutState) : TutState :=
  let st1 := { st with loading := true, error := none }
  let st2 := runAttempts 1 outcomes st1
  { st2 with loading := false }

/-!
## Content store (`ContentProvider.updateSection` / `getSection`)

Section contents are opaque JSON values; only nullishness matters to the
control flow, so a content value is `Option Val` with `none` for
`null`/`undefined` and `Val := String` for everything else.  The content
object maps section keys to such values (`none` also models an absent
key, which `??` treats identically), and `savingSections` maps keys to
their in-flight flag (`delete next[sect]` clears it to `false`).
-/

/-- Opaque non-null JSON content value. -/
abbrev Val := String

/-- The response of `api.updateSiteContentSection`: a JSON object whose
`content` field may be missing/null. -/
structure UpdateResp where
  content : Option Val
deriving DecidableEq, Repr

/-- `response?.content` — nullish when the response itself is nullish. -/
def respContent (r : Option UpdateResp) : Option Val :=
  match r with
  | none => none
  | some resp => resp.content

/-- Provider state touched by `updateSection`. -/
structure ContentState where
  content : String → Option Val
  saving : String → Bool

/-- `getSection(sect)`: `content[sect] ?? DEFAULT_CONTENT[sect]`.  The
constant `DEFAULT_CONTENT` object is passed as `defaults`. -/
def getSection (st : ContentState) (defaults : String → Option Val)
    (sect : String) : Option Val :=
  nullishCoalesce (st.content sect) (defaults sect)

/-- `updateSection(sect, newContent)` driven by the outcome of the PUT
request: throws up front when `sect` is falsy, marks the key
save-in-flight, on success stores `response?.content ?? newContent` and
returns the response, and clears the in-flight marker in the `finally`
on both paths; a rejection is rethrown without touching `content`. -/
def updateSection (st : ContentState) (sect : String) (newContent : Option Val)
    (outcome : Except ApiError (Option UpdateResp)) :
    ContentState × Except ApiError (Option UpdateResp) :=
  if sect = "" then
    (st, Except.error ⟨none, "Section is required"⟩)
  else
    let st1 : ContentState :=
      { st with saving := fun k => if k = sect then true else st.saving k }
    match outcome with
    | Except.ok response =>
        let updatedContent := nullishCoalesce (respContent response) newContent
        let st2 : ContentState :=
          { st1 with
            content := fun k => if k = sect then updatedContent else st1.content k }
        let st3 : ContentState :=
          { st2 with saving := fun k => if k = sect then false else st2.saving k }
        (st3, Except.ok response)
    | Except.error e =>
        let st2 : ContentState :=
          { st1 with saving := fun k => if k = sect then false else st1.saving k }
        (st2, Except.error e)

/-!
## Published-page cache (`fetchPublishedPage` / `invalidatePageCache`)

`pageCache` is a JS object keyed by normalized slug, modelled as an
association list; `publishedPageSlugs` is the last server response, a
list whose elements may not be strings (`none`).  A `fetchPublishedPage`
run is driven by the outcome of the (at most one) `loadPublishedPages`
refresh and the outcome of the (at most one) `api.getPublishedPage`
call; the result records both call counts so that network-call-counting
claims can be stated.

`request` can resolve `null` on empty-body and empty-text successes, so
a successful `api.getPublishedPage` payload is `Option PageData` with
`none` for that `null`; the cache stores such values verbatim, and the
source reads the cache only through truthiness guards
(`pageCacheRef.current[k]` in the fast path, the error fallback and the
invalidation guard), which treat a stored `null` like an absent key.
-/

/-- Opaque truthy page payload: a JSON object parsed from a page
response (JS objects are always truthy). -/
abbrev PageData := Nat

/-- Cache/published-set state of the provider.  A cache entry's value
is `none` when the fetch resolved `null` (empty body / empty text). -/
structure PageState where
  pageCache : List (String × Option PageData)
  publishedSlugs : List (Option String)
deriving DecidableEq, Repr

/-- The truthy read `pageCacheRef.current[k]` as performed by every
guard in the source: the stored page object when the key is present
with a truthy (non-null) value, and `none` both for an absent key and
for an entry holding `null` — JS truthiness does not distinguish the
two, and the source never reads the cache any other way. -/
def cacheLookup (cache : List (String × Option PageData)) (k : String) :
    Option PageData :=
  ((cache.find? (fun p => p.1 = k)).map Prod.snd).join

/-- `{ ...prev, [k]: data }` — the possibly-null payload is stored
verbatim. -/
def cacheInsert (cache : List (String × Option PageData)) (k : String)
    (d : Option PageData) : List (String × Option PageData) :=
  (cache.filter (fun p => p.1 ≠ k)) ++ [(k, d)]

/-- `buildSlugSet(values)`: normalize every string element, drop
non-strings and entries that normalize to the empty string.  The JS
`Set` is modelled as the list of its elements with `contains` as
membership. -/
def buildSlugSet (values : List (Option String)) : List String :=
  (values.map (fun v =>
      match v with
      | some s => normalizeSlug s
      | none => "")).filter (fun s => s ≠ "")

/-- `loadPublishedPages` applied to its request outcome: on success the
slug list is replaced by the payload if it is an array (`some items`)
and by `[]` otherwise; on failure the previous list is kept (only the
error state changes, which the claims do not use). -/
def loadPublishedPages (st : PageState)
    (outcome : Except ApiError (Option (List (Option String)))) : PageState :=
  match outcome with
  | Except.ok d => { st with publishedSlugs := d.getD [] }
  | Except.error _ => st

deriving instance DecidableEq for Except

/-- The error thrown by the published gate and the unpublished
fallback: message plus `status = 404`. -/
def notPublishedError : ApiError :=
  ⟨some 404, "Seite ist nicht veroeffentlicht oder wurde entfernt."⟩

/-- `new Error('Slug is required')` (no status field). -/
def slugRequiredError : ApiError := ⟨none, "Slug is required"⟩

/-- Result of one `fetchPublishedPage` call: the new provider state,
the settled promise, and how many times `api.getPublishedPage`
(`pageFetchCalls`) and `loadPublishedPages` (`refreshCalls`) ran. -/
structure FetchResult where
  state : PageState
  result : Except ApiError (Option PageData)
  pageFetchCalls : Nat
  refreshCalls : Nat
deriving DecidableEq, Repr

/-- The `try { api.getPublishedPage ... } catch` tail of
`fetchPublishedPage`, entered with the state current at that point
(post-refresh when the gate refreshed): on success the payload — which
may be the `null` of an empty-body resolution — is cached verbatim and
returned; on failure a truthy cached entry (when not forced) is
returned as fallback, an unpublished slug turns the error into the 404
error, and otherwise the error is rethrown. -/
def attemptFetch (st : PageState) (k : String) (force : Bool)
    (fetchOutcome : Except ApiError (Option PageData)) (refreshes : Nat) :
    FetchResult :=
  match fetchOutcome with
  | Except.ok data =>
      { state := { st with pageCache := cacheInsert st.pageCache k data }
        result := Except.ok data
        pageFetchCalls := 1
        refreshCalls := refreshes }
  | Except.error e =>
      match (if force then none else cacheLookup st.pageCache k) with
      | some d =>
          { state := st, result := Except.ok (some d)
            pageFetchCalls := 1, refreshCalls := refreshes }
      | none =>
          if (buildSlugSet st.publishedSlugs).contains k then
            { state := st, result := Except.error e
              pageFetchCalls := 1, refreshCalls := refreshes }
          else
            { state := st, result := Except.error notPublishedError
              pageFetchCalls := 1, refreshCalls := refreshes }

/-- `fetchPublishedPage(slug, { force })`: slug validation, the
non-forced cache fast path (a truthiness guard, so an entry holding a
cached `null` does not count), the published gate with its one-time
refresh, then the fetch attempt.  `slug = none` models a non-string
argument. -/
def fetchPublishedPage (st : PageState) (slug : Option String) (force : Bool)
    (refreshOutcome : Except ApiError (Option (List (Option String))))
    (fetchOutcome : Except ApiError (Option PageData)) : FetchResult :=
  match slug with
  | none =>
      { state := st, result := Except.error slugRequiredError
        pageFetchCalls := 0, refreshCalls := 0 }
  | some s =>
      if s = "" then
        { state := st, result := Except.error slugRequiredError
          pageFetchCalls := 0, refreshCalls := 0 }
      else
        let k := normalizeSlug s
        if k = "" then
          { state := st, result := Except.error slugRequiredError
            pageFetchCalls := 0, refreshCalls := 0 }
        else
          match (if force then none else cacheLookup st.pageCache k) with
          | some d =>
              { state := st, result := Except.ok (some d)
                pageFetchCalls := 0, refreshCalls := 0 }
          | none =>
              if ¬force ∧ ¬(buildSlugSet st.publishedSlugs).contains k then
                let st' := loadPublishedPages st refreshOutcome
                if ¬(buildSlugSet st'.publishedSlugs).contains k then
                  { state := st', result := Except.error notPublishedError
                    pageFetchCalls := 0, refreshCalls := 1 }
                else
                  attemptFetch st' k force fetchOutcome 1
              else
                attemptFetch st k force fetchOutcome 0

/-- The argument of `invalidatePageCache`: absent, a non-string value,
or a string. -/
inductive InvalidateArg where
  | missing
  | nonString
  | str (s : String)
deriving DecidableEq, Repr

/-- `invalidatePageCache(slug)`: a truthy string argument is
normalized — a blank normalization is a no-op, otherwise the entry is
deleted when the guard `!prev[normalizedSlug]` sees a truthy value (an
entry holding a cached `null` is left in place, invisible to the truthy
reads); every other argument (including the falsy empty string) clears
the entire cache. -/
def invalidatePageCache (st : PageState) (arg : InvalidateArg) : PageState :=
  match arg with
  | InvalidateArg.str s =>
      if s = "" then
        { st with pageCache := [] }
      else
        let k := normalizeSlug s
        if k = "" then st
        else
          match cacheLookup st.pageCache k with
          | none => st
          | some _ => { st with pageCache := st.pageCache.filter (fun p => p.1 ≠ k) }
  | _ => { st with pageCache := [] }

/-!
## Navigation resolver (dynamic part of `navigationData`)

Dynamic items come from `api.getNavigation`; an element of the list may
be `null` (`none`) and its fields may be missing (`Option`).  The
resolver filters by published slug (only when the normalized published
set is non-empty), sorts stably by `order_index ?? 0`, and maps to the
normalized route shape with the post-sort index.
-/

/-- A raw dynamic navigation item (`slug = none` models a non-string
`slug` field; `""` inside `some` is the falsy empty string for the
`||` fallbacks). -/
structure NavItem where
  slug : Option String
  label : Option String
  nid : Option String
  order_index : Option Int
deriving DecidableEq, Repr

/-- The normalized shape produced for each dynamic item. -/
structure ResolvedNavItem where
  nid : String
  label : String
  kind : String
  path : String
  slug : String
  order_index : Int
deriving DecidableEq, Repr

/-- The filter predicate of `navigationData`: drop `null` items,
non-string slugs, blank normalized slugs, and — only when
`restrictToPublished` — slugs outside the normalized published set. -/
def navKeep (publishedSet : List String) (restrict : Bool)
    (item : Option NavItem) : Bool :=
  match item with
  | none => false
  | some it =>
      match it.slug with
      | none => false
      | some s =>
          let k := normalizeSlug s
          if k = "" then false
          else if restrict ∧ ¬publishedSet.contains k then false
          else true

/-- JS `Array.prototype.map((item, index) => ...)`. -/
def mapWithIndex {α β : Type} (f : Nat → α → β) : Nat → List α → List β
  | _, [] => []
  | i, a :: as => f i a :: mapWithIndex f (i + 1) as

/-- The `(a?.order_index ?? 0)` sort key. -/
def navOrderKey (item : Option NavItem) : Int :=
  match item with
  | none => 0
  | some it => it.order_index.getD 0

/-- Normalization of one sorted item with its index. -/
def resolveNavItem (i : Nat) (item : Option NavItem) : ResolvedNavItem :=
  let rawSlug :=
    match item with
    | none => ""
    | some it => it.slug.getD ""
  let k := normalizeSlug rawSlug
  { nid :=
      jsOrStr (match item with | none => none | some it => it.nid)
        ("page-" ++ k ++ "-" ++ toString i)
    label :=
      jsOrStr (match item with | none => none | some it => it.label)
        (jsOrStr (match item with | none => none | some it => it.slug) "Seite")
    kind := "route"
    path := "/pages/" ++ k
    slug := k
    order_index :=
      match item with
      | none => Int.ofNat i
      | some it => it.order_index.getD (Int.ofNat i) }

/-- The dynamic half of `navigationData`: build the normalized
published set, decide whether the filter is active (`size > 0`), filter,
stable-sort by order key, and map to the normalized shape. -/
def navigationDynamic (publishedSlugs : List (Option String))
    (dynamicNavItems : List (Option NavItem)) : List ResolvedNavItem :=
  let publishedSet := buildSlugSet publishedSlugs
  let restrictToPublished := publishedSet ≠ []
  let filteredDynamic :=
    dynamicNavItems.filter (navKeep publishedSet restrictToPublished)
  let sortedDynamic :=
    filteredDynamic.mergeSort (fun a b => navOrderKey a ≤ navOrderKey b)
  mapWithIndex resolveNavItem 0 sortedDynamic

/-- Spec-side view of a raw item: its trimmed, lowercased slug when it
has a usable one (`none` for null items, non-string slugs, and slugs
that are blank after normalization). -/
def itemNormSlug : Option NavItem → Option String
  | none => none
  | some it =>
      match it.slug with
      | none => none
      | some s =>
          if normalizeSlug s = "" then none else some (normalizeSlug s)

/-- The raw slug string the resolver reads off an item (`""` when the
item or its slug is absent), before normalization. -/
def rawItemSlug : Option NavItem → String
  | none => ""
  | some it => it.slug.getD ""

/-!
## Transport gateway (`ApiClient` in `src/api/client.js`)

The client's token slot is `Option String` (`none` = `null`).  The
part of `request` that the claims depend on starts after `fetch`
settles: either a `Response` arrived (modelled by `RespInfo`), or the
fetch rejected with an `AbortError` (the `userSignal?.aborted` flag at
handling time decides the classification), or with another error.
-/

/-- `setToken(token)`: falsy input (`null`/`undefined`/`""` = `none` or
`some ""`) clears the slot; a string is kept only when its trim is
non-empty. -/
def setToken (arg : Option String) : Option String :=
  match arg with
  | none => none
  | some s =>
      if s = "" then none
      else if s.trim ≠ "" then some s
      else none

/-- `getHeaders()`: the `Authorization` header is attached only when
the token slot is truthy. -/
def getHeaders (token : Option String) : List (String × String) :=
  match token with
  | none => []
  | some t => if t = "" then [] else [("Authorization", "Bearer " ++ t)]

/-- The observable shape of a settled `fetch` `Response`. -/
structure RespInfo where
  status : Nat
  statusText : String
  contentLengthZero : Bool
  contentTypeJson : Bool
  contentTypeHtml : Bool
  jsonParses : Bool
  errField : Option String
  msgField : Option String
  bodyText : String
deriving DecidableEq, Repr

/-- `Response.ok`: status in the 2xx range. -/
def respOk (r : RespInfo) : Bool :=
  200 ≤ r.status ∧ r.status < 300

/-- The parsed payload `request` resolves with (or attaches a message
from when rejecting). -/
inductive Payload where
  | pnull
  | pjson (errField : Option String) (msgField : Option String)
  | pmsg (text : String)
deriving DecidableEq, Repr

/-- `payload?.error`. -/
def payloadError : Payload → Option String
  | Payload.pjson e _ => e
  | _ => none

/-- `payload?.message`. -/
def payloadMessage : Payload → Option String
  | Payload.pjson _ m => m
  | Payload.pmsg t => some t
  | Payload.pnull => none

/-- `payload?.error || payload?.message || response.statusText ||
'Request failed'`. -/
def errorMessage (p : Payload) (statusText : String) : String :=
  jsOrStr (payloadError p)
    (jsOrStr (payloadMessage p) (jsOrStr (some statusText) "Request failed"))

/-- `this.setToken(null)` executed on a thrown error with status 401 or
403 — once inside the `try` for non-ok responses and again in the
`catch`; both collapse to the same slot update. -/
def clearOn401 (token : Option String) (status : Nat) : Option String :=
  if status = 401 ∨ status = 403 then none else token

/-- The non-ok tail shared by every payload-carrying branch: clear the
token on 401/403, then throw the extracted message with the response
status. -/
def finishPayload (token : Option String) (r : RespInfo) (p : Payload) :
    Option String × Except ApiError Payload :=
  if respOk r then (token, Except.ok p)
  else (clearOn401 token r.status,
        Except.error ⟨some r.status, errorMessage p r.statusText⟩)

/-- The response-handling block of `ApiClient.request` (lines after
`fetch` resolves): empty bodies, JSON bodies (with parse failure), HTML
error bodies, and plain-text bodies, ending in the ok/not-ok split.
Returns the token slot after the call and the settled promise. -/
def handleResponse (token : Option String) (r : RespInfo) :
    Option String × Except ApiError Payload :=
  let isEmptyBody := r.status == 204 || r.status == 205 || r.contentLengthZero
  if isEmptyBody then
    if respOk r then (token, Except.ok Payload.pnull)
    else (clearOn401 token r.status,
          Except.error ⟨some r.status, jsOrStr (some r.statusText) "Request failed"⟩)
  else if r.contentTypeJson then
    if r.jsonParses then
      finishPayload token r (Payload.pjson r.errField r.msgField)
    else
      (clearOn401 token r.status,
       Except.error ⟨some r.status, "Ungueltige JSON-Antwort vom Server"⟩)
  else if r.contentTypeHtml && !respOk r then
    finishPayload token r (Payload.pmsg "Server-Fehler")
  else if r.bodyText = "" then
    finishPayload token r Payload.pnull
  else
    finishPayload token r (Payload.pmsg r.bodyText)

/-- How the `fetch` promise settled, as seen by `request`'s `catch`:
a response, an `AbortError` (with the value of `userSignal?.aborted` at
handling time), or another transport error. -/
inductive FetchOutcome where
  | response (r : RespInfo)
  | abortError (userAborted : Bool)
  | netError (e : ApiError)
deriving DecidableEq, Repr

/-- Which party initiated an abort.  In the sequential model the
caller's signal is aborted at handling time exactly when the caller
initiated the abort; the internal timeout leaves it untouched. -/
inductive AbortCause where
  | callerSignal
  | internalTimeout
deriving DecidableEq, Repr

/-- `userSignal?.aborted` as a function of the abort's initiator. -/
def userSignalAborted : AbortCause → Bool
  | AbortCause.callerSignal => true
  | AbortCause.internalTimeout => false

/-- `ApiClient.request` from the point where `fetch` settles: response
handling, abort classification (status 0 for a caller abort, 408 for
the timeout), and the 401/403 token clearing in the `catch` for other
errors. -/
def requestStep (token : Option String) (out : FetchOutcome) :
    Option String × Except ApiError Payload :=
  match out with
  | FetchOutcome.response r => handleResponse token r
  | FetchOutcome.abortError userAborted =>
      (token,
       Except.error
         (if userAborted then ⟨some 0, "Request aborted"⟩
          else ⟨some 408, "Request timed out"⟩))
  | FetchOutcome.netError e =>
      match e.status with
      | some s => (clearOn401 token s, Except.error e)
      | none => (token, Except.error e)

/-- `ApiClient.logout()`: `try { request POST /auth/logout } finally
{ this.setToken(null) }` — the request's outcome is propagated
unchanged while the token slot always ends cleared. -/
def logout (token : Option String) (out : FetchOutcome) :
    Option String × Except ApiError Payload :=
  let step := requestStep token out
  (setToken none, step.2)

/-- The status field of the error a settled promise rejected with
(`none` when it resolved). -/
def thrownStatus : Except ApiError Payload → Option (Option Nat)
  | Except.error e => some e.status
  | Except.ok _ => none

end CMS

namespace CMS

/-! ## Helper lemmas -/

/-- Deleting the key `k0` from the cache makes its lookup `none`. -/
theorem cacheLookup_filter_self (c : List (String × Option PageData))
    (k0 : String) :
    cacheLookup (c.filter (fun p => p.1 ≠ k0)) k0 = none := by
  induction c with
  | nil => rfl
  | cons hd tl ih =>
      by_cases h : hd.1 = k0
      · simp [cacheLookup, List.filter_cons, List.find?_cons, h] at ih ⊢
        exact ih
      · simp [cacheLookup, List.filter_cons, List.find?_cons, h] at ih ⊢
        exact ih

/-- Deleting the key `k0` leaves every other key's lookup unchanged. -/
theorem cacheLookup_filter_ne (c : List (String × Option PageData))
    (k0 k : String) (h : k ≠ k0) :
    cacheLookup (c.filter (fun p => p.1 ≠ k0)) k = cacheLookup c k := by
  induction c with
  | nil => rfl
  | cons hd tl ih =>
      by_cases hh : hd.1 = k0
      · have h1 : hd.1 ≠ k := fun hk => h (hk ▸ hh)
        simp [cacheLookup, List.filter_cons, List.find?_cons, hh, h1, h,
          Ne.symm h] at ih ⊢
        exact ih
      · by_cases hk : hd.1 = k
        · simp [cacheLookup, List.filter_cons, List.find?_cons, hh, hk, h,
            Ne.symm h]
        · simp [cacheLookup, List.filter_cons, List.find?_cons, hh, hk, h,
            Ne.symm h] at ih ⊢
          exact ih

/-- Writing `{ ...prev, [k]: d }` makes `k`'s truthy lookup read back
`d` (so `none` when a `null` was cached). -/
theorem cacheLookup_insert (c : List (String × Option PageData)) (k : String)
    (d : Option PageData) :
    cacheLookup (cacheInsert c k d) k = d := by
  induction c with
  | nil => simp [cacheInsert, cacheLookup, List.find?_cons]
  | cons hd tl ih =>
      by_cases h : hd.1 = k
      · simp [cacheInsert, cacheLookup, List.filter_cons, List.find?_cons, h]
          at ih ⊢
        exact ih
      · simp [cacheInsert, cacheLookup, List.filter_cons, List.find?_cons, h]
          at ih ⊢
        exact ih

/-- The slug assigned by the resolver is the normalized raw slug,
independently of the running index. -/
theorem mapWithIndex_slug (l : List (Option NavItem)) (n : Nat) :
    (mapWithIndex resolveNavItem n l).map (fun x => x.slug)
      = l.map (fun it => normalizeSlug (rawItemSlug it)) := by
  induction l generalizing n with
  | nil => rfl
  | cons hd tl ih =>
      cases hd <;> simp [mapWithIndex, resolveNavItem, rawItemSlug, ih]

/-- With the published restriction active, the slugs of the filtered
items are exactly the valid normalized slugs that lie in the set. -/
theorem navFilter_slugs_restrict (l : List (Option NavItem))
    (pubSet : List String) :
    (l.filter (navKeep pubSet true)).map
        (fun it => normalizeSlug (rawItemSlug it))
      = (l.filterMap itemNormSlug).filter (fun k => pubSet.contains k) := by
  induction l with
  | nil => rfl
  | cons hd tl ih =>
      rcases hd with _ | it
      · simpa [navKeep, itemNormSlug] using ih
      · rcases hslug : it.slug with _ | s
        · simpa [navKeep, itemNormSlug, hslug] using ih
        · by_cases hk : normalizeSlug s = ""
          · simpa [navKeep, itemNormSlug, rawItemSlug, hslug, hk] using ih
          · by_cases hmem : normalizeSlug s ∈ pubSet
            · simp [navKeep, itemNormSlug, rawItemSlug, hslug, hk, hmem]
                at ih ⊢
              exact ih
            · simp [navKeep, itemNormSlug, rawItemSlug, hslug, hk, hmem]
                at ih ⊢
              exact ih

/-- With the published restriction disabled, the slugs of the filtered
items are exactly the valid normalized slugs of all items. -/
theorem navFilter_slugs_all (l : List (Option NavItem))
    (pubSet : List String) :
    (l.filter (navKeep pubSet false)).map
        (fun it => normalizeSlug (rawItemSlug it))
      = l.filterMap itemNormSlug := by
  induction l with
  | nil => rfl
  | cons hd tl ih =>
      rcases hd with _ | it
      · simpa [navKeep, itemNormSlug] using ih
      · rcases hslug : it.slug with _ | s
        · simpa [navKeep, itemNormSlug, hslug] using ih
        · by_cases hk : normalizeSlug s = ""
          · simp [navKeep, itemNormSlug, rawItemSlug, hslug, hk] at ih ⊢
            exact ih
          · simp [navKeep, itemNormSlug, rawItemSlug, hslug, hk] at ih ⊢
            exact ih

/-! ## Theorems for the claims -/

/-- C1: the claim asserts that when every retry attempt fails with a
retryable error, the stored tutorials list is left at its last
successfully-loaded value.  Counterexample: starting from a state whose
list was successfully loaded (non-empty), a run of three retryable
500-failures leaves the list empty, not at its previous value. -/
theorem loadTutorials_preserves_list_cex :
    (loadTutorials
        [Except.error ⟨some 500, "a"⟩, Except.error ⟨some 500, "b"⟩,
          Except.error ⟨some 500, "c"⟩]
        { tutorials := [⟨1, []⟩], error := none, loading := false }).tutorials
      = [] ∧
    ({ tutorials := [⟨1, []⟩], error := none, loading := false } :
        TutState).tutorials ≠ [] := by
  constructor
  · rfl
  · simp

/-- C1 (amended): when every attempt of a `loadTutorials` run fails
with a retryable error, after the final attempt the last error is
surfaced (stored in the provider's error slot) and the stored tutorials
list is cleared to an explicit empty list — regardless of any
previously loaded value, not only on the very first load. -/
theorem loadTutorials_exhaustion_clears (st : TutState) (e1 e2 e3 : ApiError)
    (h1 : retryable e1 = true) (h2 : retryable e2 = true)
    (h3 : retryable e3 = true) :
    loadTutorials [Except.error e1, Except.error e2, Except.error e3] st
      = { tutorials := [], error := some e3, loading := false } := by
  simp [loadTutorials, runAttempts, h1, h2, h3]

/-- Witness for C1's amended theorem at a concrete run. -/
theorem loadTutorials_exhaustion_clears_witness :
    retryable ⟨some 500, "a"⟩ = true ∧ retryable ⟨none, "b"⟩ = true ∧
    retryable ⟨some 503, "c"⟩ = true ∧
    loadTutorials
        [Except.error ⟨some 500, "a"⟩, Except.error ⟨none, "b"⟩,
          Except.error ⟨some 503, "c"⟩]
        { tutorials := [⟨7, ["linux"]⟩], error := none, loading := true }
      = { tutorials := [], error := some ⟨some 503, "c"⟩, loading := false } :=
  ⟨by decide, by decide, by decide,
    loadTutorials_exhaustion_clears _ _ _ _ (by decide) (by decide) (by decide)⟩

/-- C2: when `updateSection(sect, v)` resolves successfully and the PUT
response carries an echoed `content` value `c`, the promise resolves
with the response and `getSection(sect)` afterwards returns `c` — the
server-echoed value, not the caller's optimistic `v`, even when they
differ. -/
theorem updateSection_success_echoes_server (st : ContentState)
    (defaults : String → Option Val) (sect : String) (v : Option Val)
    (resp : UpdateResp) (c : Val) (hsect : sect ≠ "")
    (hc : resp.content = some c) :
    (updateSection st sect v (Except.ok (some resp))).2
        = Except.ok (some resp) ∧
    getSection (updateSection st sect v (Except.ok (some resp))).1 defaults sect
        = some c := by
  simp [updateSection, getSection, respContent, nullishCoalesce, hsect, hc]

/-- Witness for C2 with an echoed value that differs from the caller's
optimistic value. -/
theorem updateSection_success_echoes_server_witness :
    ("hero" : String) ≠ "" ∧
    (UpdateResp.mk (some "echoed")).content = some "echoed" ∧
    (some "echoed" : Option Val) ≠ some "optimistic" ∧
    (updateSection ⟨fun _ => none, fun _ => false⟩ "hero" (some "optimistic")
        (Except.ok (some ⟨some "echoed"⟩))).2
      = Except.ok (some ⟨some "echoed"⟩) ∧
    getSection
        (updateSection ⟨fun _ => none, fun _ => false⟩ "hero" (some "optimistic")
          (Except.ok (some ⟨some "echoed"⟩))).1 (fun _ => none) "hero"
      = some "echoed" := by
  refine ⟨by decide, rfl, by decide, ?_⟩
  exact updateSection_success_echoes_server _ _ _ _ _ _ (by decide) rfl

/-- C3: when the persist request rejects, `updateSection(sect, v)`
rethrows that error, the content object is untouched (so
`getSection(sect)` is unchanged), and the save-in-flight marker for
`sect` ends cleared — on the failure path and on every other outcome. -/
theorem updateSection_failure_atomic (st : ContentState)
    (defaults : String → Option Val) (sect : String) (v : Option Val)
    (e : ApiError) (hsect : sect ≠ "") :
    (updateSection st sect v (Except.error e)).2 = Except.error e ∧
    (updateSection st sect v (Except.error e)).1.content = st.content ∧
    getSection (updateSection st sect v (Except.error e)).1 defaults sect
        = getSection st defaults sect ∧
    (updateSection st sect v (Except.error e)).1.saving sect = false ∧
    (∀ outcome, ((updateSection st sect v outcome).1).saving sect = false) := by
  refine ⟨?_, ?_, ?_, ?_, ?_⟩
  · simp [updateSection, hsect]
  · simp [updateSection, hsect]
  · simp [updateSection, getSection, hsect]
  · simp [updateSection, hsect]
  · intro outcome
    cases outcome <;> simp [updateSection, hsect]

/-- Witness for C3 at a concrete failing save. -/
theorem updateSection_failure_atomic_witness :
    ("hero" : String) ≠ "" ∧
    (updateSection ⟨fun _ => some "old", fun _ => false⟩ "hero" (some "new")
        (Except.error ⟨some 500, "boom"⟩)).2 = Except.error ⟨some 500, "boom"⟩ ∧
    getSection
        (updateSection ⟨fun _ => some "old", fun _ => false⟩ "hero" (some "new")
          (Except.error ⟨some 500, "boom"⟩)).1 (fun _ => none) "hero"
      = getSection ⟨fun _ => some "old", fun _ => false⟩ (fun _ => none) "hero" ∧
    (updateSection ⟨fun _ => some "old", fun _ => false⟩ "hero" (some "new")
        (Except.error ⟨some 500, "boom"⟩)).1.saving "hero" = false := by
  have h := updateSection_failure_atomic ⟨fun _ => some "old", fun _ => false⟩
    (fun _ => none) "hero" (some "new") ⟨some 500, "boom"⟩ (by decide)
  exact ⟨by decide, h.1, h.2.2.1, h.2.2.2.1⟩

/-- C7: when the normalized published slug set is non-empty, the
resolved dynamic navigation list carries exactly the valid normalized
slugs of the dynamic items that lie in the set (as a permutation,
since the resolver reorders by the explicit order field); when the set
is empty, the published filter is disabled and every item with a valid
slug survives. -/
theorem navigationDynamic_published_filter (pub : List (Option String))
    (items : List (Option NavItem)) :
    (buildSlugSet pub ≠ [] →
      ((navigationDynamic pub items).map (fun x => x.slug)).Perm
        ((items.filterMap itemNormSlug).filter
          (fun k => (buildSlugSet pub).contains k))) ∧
    (buildSlugSet pub = [] →
      ((navigationDynamic pub items).map (fun x => x.slug)).Perm
        (items.filterMap itemNormSlug)) := by
  constructor
  · intro h
    have hd : decide (buildSlugSet pub ≠ ([] : List String)) = true :=
      decide_eq_true h
    simp only [navigationDynamic, hd]
    rw [mapWithIndex_slug]
    refine ((List.mergeSort_perm _ _).map _).trans ?_
    rw [navFilter_slugs_restrict]
  · intro h
    have hd : decide (buildSlugSet pub ≠ ([] : List String)) = false :=
      decide_eq_false (fun hn => hn h)
    simp only [navigationDynamic, hd]
    rw [mapWithIndex_slug]
    refine ((List.mergeSort_perm _ _).map _).trans ?_
    rw [navFilter_slugs_all]

/-- Witness for C7: with dynamic items for slugs `"x"` and `"y"` and
only `"x"` published, the resolved dynamic list has exactly the one
slug `"x"`; with an empty published set both items survive. -/
theorem navigationDynamic_published_filter_witness :
    buildSlugSet [some "x"] ≠ [] ∧
    (navigationDynamic [some "x"]
        [some ⟨some "x", some "X", some "idx", some 0⟩,
          some ⟨some "y", some "Y", some "idy", some 1⟩]).map
        (fun x => x.slug) = ["x"] ∧
    buildSlugSet [] = [] ∧
    ((navigationDynamic []
        [some ⟨some "x", some "X", some "idx", some 0⟩,
          some ⟨some "y", some "Y", some "idy", some 1⟩]).map
        (fun x => x.slug)).Perm ["x", "y"] := by
  refine ⟨by decide, ?_, rfl, ?_⟩
  · have hperm :=
      (navigationDynamic_published_filter [some "x"]
        [some ⟨some "x", some "X", some "idx", some 0⟩,
          some ⟨some "y", some "Y", some "idy", some 1⟩]).1 (by decide)
    have hval :
        (([some (⟨some "x", some "X", some "idx", some 0⟩ : NavItem),
            some ⟨some "y", some "Y", some "idy", some 1⟩].filterMap
              itemNormSlug).filter
          (fun k => (buildSlugSet [some "x"]).contains k)) = ["x"] := by
      decide
    rw [hval] at hperm
    exact List.perm_singleton.mp hperm
  · have hperm :=
      (navigationDynamic_published_filter []
        [some ⟨some "x", some "X", some "idx", some 0⟩,
          some ⟨some "y", some "Y", some "idy", some 1⟩]).2 rfl
    have hval :
        ([some (⟨some "x", some "X", some "idx", some 0⟩ : NavItem),
            some ⟨some "y", some "Y", some "idy", some 1⟩].filterMap
              itemNormSlug) = ["x", "y"] := by
      decide
    rw [hval] at hperm
    exact hperm

/-- C8: an aborted Transport Gateway request rejects with status 0 when
the caller-supplied signal initiated the abort and with status 408 when
the internal timeout did, so the two cases are distinguishable by
status. -/
theorem abort_classified_by_status (token : Option String) (c : AbortCause) :
    (requestStep token (FetchOutcome.abortError (userSignalAborted c))).2
      = Except.error
          (if c = AbortCause.callerSignal then ⟨some 0, "Request aborted"⟩
           else ⟨some 408, "Request timed out"⟩) := by
  cases c <;> rfl

/-- C9: `logout()` always ends with the token slot cleared to `null`,
even when the underlying POST rejects, and the request's outcome
(including a network error) still propagates to the caller. -/
theorem logout_clears_token (token : Option String) (out : FetchOutcome) :
    (logout token out).1 = none ∧
    (logout token out).2 = (requestStep token out).2 ∧
    getHeaders (logout token out).1 = [] := by
  exact ⟨rfl, rfl, rfl⟩

/-- C6: every response with status 401 or 403 leaves the token slot
cleared, rejects with an error carrying that status, and makes the next
`getHeaders()` omit the `Authorization` header. -/
theorem auth_failure_clears_token (token : Option String) (r : RespInfo)
    (h : r.status = 401 ∨ r.status = 403) :
    (handleResponse token r).1 = none ∧
    thrownStatus (handleResponse token r).2 = some (some r.status) ∧
    getHeaders (handleResponse token r).1 = [] := by
  obtain ⟨status, statusText, clz, ctJson, ctHtml, jp, ef, mf, bt⟩ := r
  rcases h with h | h <;> subst h <;>
    cases clz <;> cases ctJson <;> cases ctHtml <;> cases jp <;>
    by_cases hb : bt = "" <;>
    simp [handleResponse, finishPayload, respOk, clearOn401, getHeaders,
      thrownStatus, hb]

/-- Witness for C6 at a concrete 401 JSON response. -/
theorem auth_failure_clears_token_witness :
    ((401 : Nat) = 401 ∨ (401 : Nat) = 403) ∧
    ((handleResponse (some "tok")
        { status := 401, statusText := "Unauthorized", contentLengthZero := false
          contentTypeJson := true, contentTypeHtml := false, jsonParses := true
          errField := some "invalid token", msgField := none, bodyText := "" }).1
        = none ∧
      thrownStatus
        (handleResponse (some "tok")
          { status := 401, statusText := "Unauthorized", contentLengthZero := false
            contentTypeJson := true, contentTypeHtml := false, jsonParses := true
            errField := some "invalid token", msgField := none, bodyText := "" }).2
        = some (some 401) ∧
      getHeaders
        (handleResponse (some "tok")
          { status := 401, statusText := "Unauthorized", contentLengthZero := false
            contentTypeJson := true, contentTypeHtml := false, jsonParses := true
            errField := some "invalid token", msgField := none, bodyText := "" }).1
        = []) :=
  ⟨Or.inl rfl, auth_failure_clears_token (some "tok") _ (Or.inl rfl)⟩

/-- C10: the claim asserts that an invalidate call with a string
argument that is empty after trimming removes no entry.
Counterexample: the empty string is falsy in JS, so
`invalidatePageCache("")` falls into the clear-everything branch and
removes the one cached entry. -/
theorem invalidate_blank_cex :
    invalidatePageCache { pageCache := [("x", some 7)], publishedSlugs := [] }
        (InvalidateArg.str "")
      = { pageCache := [], publishedSlugs := [] } ∧
    ({ pageCache := [("x", some 7)], publishedSlugs := [] } :
        PageState).pageCache
      ≠ [] := by
  constructor
  · rfl
  · simp

/-- C10 (amended): a **non-empty** string argument that is
whitespace-only after trimming is a no-op; an empty-string argument —
like a missing or non-string argument — clears the entire cache; and a
valid slug argument removes at most the entry of its normalized slug,
leaving every other entry unchanged. -/
theorem invalidate_blank_amended :
    (∀ (st : PageState) (s : String), s ≠ "" → normalizeSlug s = "" →
      invalidatePageCache st (InvalidateArg.str s) = st) ∧
    (∀ st : PageState,
      (invalidatePageCache st (InvalidateArg.str "")).pageCache = [] ∧
      (invalidatePageCache st InvalidateArg.missing).pageCache = [] ∧
      (invalidatePageCache st InvalidateArg.nonString).pageCache = []) ∧
    (∀ (st : PageState) (s k : String), s ≠ "" → normalizeSlug s ≠ "" →
      k ≠ normalizeSlug s →
      cacheLookup (invalidatePageCache st (InvalidateArg.str s)).pageCache k
          = cacheLookup st.pageCache k ∧
      cacheLookup (invalidatePageCache st (InvalidateArg.str s)).pageCache
          (normalizeSlug s) = none) := by
  refine ⟨?_, ?_, ?_⟩
  · intro st s hs hnorm
    simp [invalidatePageCache, hs, hnorm]
  · intro st
    exact ⟨rfl, rfl, rfl⟩
  · intro st s k hs hnorm hk
    rcases hfound : cacheLookup st.pageCache (normalizeSlug s) with _ | d
    · constructor
      · simp [invalidatePageCache, hs, hnorm, hfound]
      · simp [invalidatePageCache, hs, hnorm, hfound]
    · constructor
      · simp only [invalidatePageCache, if_neg hs, if_neg hnorm, hfound]
        exact cacheLookup_filter_ne st.pageCache (normalizeSlug s) k hk
      · simp only [invalidatePageCache, if_neg hs, if_neg hnorm, hfound]
        exact cacheLookup_filter_self st.pageCache (normalizeSlug s)

/-- Every branch of the fetch attempt performs exactly one page-fetch
endpoint call. -/
theorem attemptFetch_calls (st : PageState) (k : String) (force : Bool)
    (f : Except ApiError (Option PageData)) (n : Nat) :
    (attemptFetch st k force f n).pageFetchCalls = 1 := by
  rcases f with e | data
  · cases force
    · rcases hc : cacheLookup st.pageCache k with _ | d0
      · simp only [attemptFetch, hc]
        simp
        split <;> rfl
      · simp [attemptFetch, hc]
    · simp only [attemptFetch]
      simp
      split <;> rfl
  · rfl

/-- A single `fetchPublishedPage` call hits the page-fetch endpoint at
most once. -/
theorem fetch_calls_le_one (st : PageState) (slug : Option String)
    (force : Bool) (r : Except ApiError (Option (List (Option String))))
    (f : Except ApiError (Option PageData)) :
    (fetchPublishedPage st slug force r f).pageFetchCalls ≤ 1 := by
  rcases slug with _ | s
  · simp [fetchPublishedPage]
  · by_cases hs : s = ""
    · simp [fetchPublishedPage, hs]
    · by_cases hk : normalizeSlug s = ""
      · simp [fetchPublishedPage, hs, hk]
      · cases force
        · rcases hc : cacheLookup st.pageCache (normalizeSlug s) with _ | d
          · by_cases hpub :
                normalizeSlug s ∈ buildSlugSet st.publishedSlugs
            · simp [fetchPublishedPage, hs, hk, hc, hpub, attemptFetch_calls]
            · by_cases href :
                  normalizeSlug s ∈
                    buildSlugSet (loadPublishedPages st r).publishedSlugs <;>
                simp [fetchPublishedPage, hs, hk, hc, hpub, href,
                  attemptFetch_calls]
          · simp [fetchPublishedPage, hs, hk, hc]
        · simp [fetchPublishedPage, hs, hk, attemptFetch_calls]

/-- If a non-forced fetch attempt resolves with a truthy payload `d`,
the cache afterwards reads back `d` under the normalized slug (fresh
fetch, cache hit, and stale fallback all end in that configuration; a
`null` resolution instead caches a falsy entry, which is why the
hypothesis demands `some d`). -/
theorem attemptFetch_ok_cached (st : PageState) (k : String)
    (f : Except ApiError (Option PageData)) (n : Nat) (d : PageData)
    (h : (attemptFetch st k false f n).result = Except.ok (some d)) :
    cacheLookup (attemptFetch st k false f n).state.pageCache k = some d := by
  rcases f with e | data
  · rcases hc : cacheLookup st.pageCache k with _ | d0
    · by_cases hpub : k ∈ buildSlugSet st.publishedSlugs <;>
        simp [attemptFetch, hc, hpub] at h
    · simp [attemptFetch, hc] at h ⊢
      exact h
  · simp [attemptFetch] at h ⊢
    rw [cacheLookup_insert, h]

/-- If a non-forced `fetchPublishedPage` call resolves with a truthy
payload `d`, the resulting state caches `d` under the normalized
slug. -/
theorem fetch_ok_cached (st : PageState) (s : String)
    (r : Except ApiError (Option (List (Option String))))
    (f : Except ApiError (Option PageData)) (d : PageData)
    (hs : s ≠ "") (hk : normalizeSlug s ≠ "")
    (h : (fetchPublishedPage st (some s) false r f).result
        = Except.ok (some d)) :
    cacheLookup
        (fetchPublishedPage st (some s) false r f).state.pageCache
        (normalizeSlug s) = some d := by
  rcases hc : cacheLookup st.pageCache (normalizeSlug s) with _ | d0
  · by_cases hpub : normalizeSlug s ∈ buildSlugSet st.publishedSlugs
    · simp [fetchPublishedPage, hs, hk, hc, hpub] at h ⊢
      exact attemptFetch_ok_cached _ _ _ _ _ h
    · by_cases href :
          normalizeSlug s ∈
            buildSlugSet (loadPublishedPages st r).publishedSlugs
      · simp [fetchPublishedPage, hs, hk, hc, hpub, href] at h ⊢
        exact attemptFetch_ok_cached _ _ _ _ _ h
      · simp [fetchPublishedPage, hs, hk, hc, hpub, href] at h
  · simp [fetchPublishedPage, hs, hk, hc] at h ⊢
    exact h

/-- C5: the claim asserts that two non-forced fetches of the same slug
perform at most one call to the page-fetch endpoint.  Two
counterexample runs: (a) the first call's endpoint request fails with a
500 and nothing is cached, so the second call hits the endpoint again;
(b) the first call *resolves successfully* but with the `null` of an
empty-body response — the null is cached, the truthiness fast path
treats the entry as absent, and the second call hits the endpoint
again.  Both runs make two endpoint calls. -/
theorem fetch_twice_single_call_cex :
    ((fetchPublishedPage { pageCache := [], publishedSlugs := [some "x"] }
          (some "x") false (Except.ok (some [some "x"]))
          (Except.error ⟨some 500, "boom"⟩)).pageFetchCalls
        +
        (fetchPublishedPage
            (fetchPublishedPage
                { pageCache := [], publishedSlugs := [some "x"] }
                (some "x") false (Except.ok (some [some "x"]))
                (Except.error ⟨some 500, "boom"⟩)).state
            (some "x") false (Except.ok (some [some "x"]))
            (Except.error ⟨some 500, "boom"⟩)).pageFetchCalls
      = 2) ∧
    ((fetchPublishedPage { pageCache := [], publishedSlugs := [some "x"] }
        (some "x") false (Except.ok (some [some "x"]))
        (Except.ok none)).result = Except.ok none ∧
      (fetchPublishedPage { pageCache := [], publishedSlugs := [some "x"] }
            (some "x") false (Except.ok (some [some "x"]))
            (Except.ok none)).pageFetchCalls
          +
          (fetchPublishedPage
              (fetchPublishedPage
                  { pageCache := [], publishedSlugs := [some "x"] }
                  (some "x") false (Except.ok (some [some "x"]))
                  (Except.ok none)).state
              (some "x") false (Except.ok (some [some "x"]))
              (Except.ok none)).pageFetchCalls
        = 2) := by
  exact ⟨rfl, rfl, rfl⟩

/-- C5 (amended): whenever a truthy cache entry exists for the
normalized slug and force is false, fetch returns that entry without
any network call; hence when the **first** non-forced fetch resolves
successfully **with a non-null page payload**, a second non-forced
fetch of any slug with the same normalized form is a pure cache hit
(zero endpoint calls, zero refreshes, same state, same value), and the
pair performs at most one page-fetch endpoint call.  (A success that
resolves `null` caches a falsy entry that the truthiness fast path
treats as absent, so — like a failure — it does not prevent a second
endpoint call; see the counterexample.) -/
theorem fetch_twice_cache_hit (st : PageState) (s1 s2 : String)
    (r1 r2 : Except ApiError (Option (List (Option String))))
    (f1 f2 : Except ApiError (Option PageData)) (d : PageData)
    (h1 : s1 ≠ "") (h2 : s2 ≠ "") (hk : normalizeSlug s1 ≠ "")
    (heq : normalizeSlug s2 = normalizeSlug s1)
    (hok : (fetchPublishedPage st (some s1) false r1 f1).result
        = Except.ok (some d)) :
    fetchPublishedPage (fetchPublishedPage st (some s1) false r1 f1).state
        (some s2) false r2 f2
      = { state := (fetchPublishedPage st (some s1) false r1 f1).state
          result := Except.ok (some d)
          pageFetchCalls := 0
          refreshCalls := 0 } ∧
    (fetchPublishedPage st (some s1) false r1 f1).pageFetchCalls ≤ 1 := by
  have hcached := fetch_ok_cached st s1 r1 f1 d h1 hk hok
  constructor
  · have hk2 : normalizeSlug s2 ≠ "" := by rw [heq]; exact hk
    generalize hA :
      (fetchPublishedPage st (some s1) false r1 f1).state = A at hcached ⊢
    simp [fetchPublishedPage, h2, hk2, hk, heq, hcached]
  · exact fetch_calls_le_one st (some s1) false r1 f1

/-- Witness for C5's amended theorem: a fetch of `"x"` resolving with a
non-null payload, followed by a fetch of `" X "` (same slug up to case
and whitespace) that is a pure cache hit even though its own endpoint
outcome would have been an error. -/
theorem fetch_twice_cache_hit_witness :
    ("x" : String) ≠ "" ∧ (" X " : String) ≠ "" ∧ normalizeSlug "x" ≠ "" ∧
    normalizeSlug " X " = normalizeSlug "x" ∧
    (fetchPublishedPage { pageCache := [], publishedSlugs := [some "x"] }
        (some "x") false (Except.ok (some [some "x"]))
        (Except.ok (some 42))).result
      = Except.ok (some 42) ∧
    fetchPublishedPage
        (fetchPublishedPage { pageCache := [], publishedSlugs := [some "x"] }
          (some "x") false (Except.ok (some [some "x"]))
          (Except.ok (some 42))).state
        (some " X ") false (Except.ok (some [some "x"]))
        (Except.error ⟨some 500, "later"⟩)
      = { state :=
            (fetchPublishedPage { pageCache := [], publishedSlugs := [some "x"] }
              (some "x") false (Except.ok (some [some "x"]))
              (Except.ok (some 42))).state
          result := Except.ok (some 42)
          pageFetchCalls := 0
          refreshCalls := 0 } := by
  refine ⟨by decide, by decide, by decide, by decide, rfl, ?_⟩
  exact (fetch_twice_cache_hit { pageCache := [], publishedSlugs := [some "x"] }
    "x" " X " (Except.ok (some [some "x"])) (Except.ok (some [some "x"]))
    (Except.ok (some 42)) (Except.error ⟨some 500, "later"⟩) 42 (by decide)
    (by decide) (by decide) (by decide) rfl).1

/-- C4: the claim asserts that every non-forced fetch of a slug outside
the Published Slug Set refreshes the set and, when still unpublished,
rejects with 404.  Counterexample: the cache fast path runs before the
gate, so a cached entry for an unpublished slug is returned as a
success, with no refresh and no 404. -/
theorem published_gate_cex :
    ((buildSlugSet
        ({ pageCache := [("x", some 7)], publishedSlugs := [] } :
          PageState).publishedSlugs).contains "x" = false) ∧
    fetchPublishedPage { pageCache := [("x", some 7)], publishedSlugs := [] }
        (some "x") false (Except.ok (some [])) (Except.ok (some 9))
      = { state := { pageCache := [("x", some 7)], publishedSlugs := [] }
          result := Except.ok (some 7)
          pageFetchCalls := 0
          refreshCalls := 0 } := by
  constructor
  · rfl
  · rfl

/-- C4 (amended): for every non-forced fetch of a slug whose normalized
form is not in the Published Slug Set **and for which no cache entry
exists**, the cache triggers a one-time refresh of the set and
re-checks; if the slug is still not published after the refresh, the
fetch rejects with an error carrying status 404 without ever calling
the page-fetch endpoint. -/
theorem published_gate_404 (st : PageState) (s : String)
    (r : Except ApiError (Option (List (Option String))))
    (f : Except ApiError (Option PageData))
    (hs : s ≠ "") (hk : normalizeSlug s ≠ "")
    (hcache : cacheLookup st.pageCache (normalizeSlug s) = none)
    (hgate : (buildSlugSet st.publishedSlugs).contains (normalizeSlug s) = false)
    (hrefreshed :
      (buildSlugSet (loadPublishedPages st r).publishedSlugs).contains
          (normalizeSlug s) = false) :
    fetchPublishedPage st (some s) false r f
      = { state := loadPublishedPages st r
          result := Except.error notPublishedError
          pageFetchCalls := 0
          refreshCalls := 1 } ∧
    notPublishedError.status = some 404 := by
  constructor
  · have hg : normalizeSlug s ∉ buildSlugSet st.publishedSlugs := by
      simpa using hgate
    have hr :
        normalizeSlug s ∉
          buildSlugSet (loadPublishedPages st r).publishedSlugs := by
      simpa using hrefreshed
    simp [fetchPublishedPage, hs, hk, hcache, hg, hr]
  · rfl

/-- Witness for C4's amended theorem: slug `"x"` unknown before and
after the refresh, empty cache. -/
theorem published_gate_404_witness :
    ("x" : String) ≠ "" ∧ normalizeSlug "x" ≠ "" ∧
    cacheLookup ([] : List (String × Option PageData)) (normalizeSlug "x")
      = none ∧
    (buildSlugSet [some "other"]).contains (normalizeSlug "x") = false ∧
    fetchPublishedPage { pageCache := [], publishedSlugs := [some "other"] }
        (some "x") false (Except.ok (some [some "other"]))
        (Except.ok (some 9))
      = { state := { pageCache := [], publishedSlugs := [some "other"] }
          result := Except.error notPublishedError
          pageFetchCalls := 0
          refreshCalls := 1 } := by
  refine ⟨by decide, by decide, rfl, by decide, ?_⟩
  exact (published_gate_404 { pageCache := [], publishedSlugs := [some "other"] }
    "x" (Except.ok (some [some "other"])) (Except.ok (some 9)) (by decide)
    (by decide) rfl (by decide) (by decide)).1

/-- Witness for C10's amended theorem: a whitespace-only slug is a
no-op, a blank/missing/non-string argument clears everything, and a
valid slug removes only its own entry. -/
theorem invalidate_blank_amended_witness :
    ((" " : String) ≠ "" ∧ normalizeSlug " " = "" ∧
      invalidatePageCache { pageCache := [("x", some 7)], publishedSlugs := [] }
          (InvalidateArg.str " ")
        = { pageCache := [("x", some 7)], publishedSlugs := [] }) ∧
    (invalidatePageCache { pageCache := [("x", some 7)], publishedSlugs := [] }
        InvalidateArg.missing).pageCache = [] ∧
    (("  X " : String) ≠ "" ∧ normalizeSlug "  X " ≠ "" ∧
      ("y" : String) ≠ normalizeSlug "  X " ∧
      cacheLookup
          (invalidatePageCache
            { pageCache := [("x", some 7), ("y", some 8)], publishedSlugs := [] }
            (InvalidateArg.str "  X ")).pageCache "y"
        = cacheLookup [("x", some 7), ("y", some 8)] "y" ∧
      cacheLookup
          (invalidatePageCache
            { pageCache := [("x", some 7), ("y", some 8)], publishedSlugs := [] }
            (InvalidateArg.str "  X ")).pageCache (normalizeSlug "  X ")
        = none) := by
  refine ⟨⟨by decide, by decide, ?_⟩, ?_, by decide, by decide, by decide, ?_⟩
  · exact invalidate_blank_amended.1 _ " " (by decide) (by decide)
  · exact (invalidate_blank_amended.2.1 _).2.1
  · exact invalidate_blank_amended.2.2 _ "  X " "y" (by decide) (by decide) (by decide)

end CMS
